import Mathlib

/-!
Verification development for the `webapp/risk_scoring` package
(`features.py`, `service.py`, `train.py`).

The Python code is shallowly embedded over exact rational arithmetic (`ℚ`):
every float computation of the source is rendered with the corresponding
exact rational operation, and Python's `round(x, n)` (round-half-to-even on
the scaled value) is rendered by `pyRound`.  Dictionaries produced by
`patient_to_feature_dict` are rendered as a structure `FeatureRow` whose
core keys (always emitted by the builder) are plain fields and whose
extension keys (read defensively by the service via `.get`) are `Option`
fields, `none` meaning the key is absent.  Python's falsy-`or` chaining on
numbers (`a or b or 0.0`) is rendered by `chainOr`, observing that the only
falsy rational is `0`.
-/

namespace RiskScoring

/-- Round-half-to-even to an integer, exactly as Python's builtin `round`
rounds a value whose fractional part is compared against 1/2, with ties
going to the even neighbour. -/
def rhe (q : ℚ) : ℤ :=
  if q - (⌊q⌋ : ℚ) < 1/2 then ⌊q⌋
  else if q - (⌊q⌋ : ℚ) > 1/2 then ⌊q⌋ + 1
  else if Even ⌊q⌋ then ⌊q⌋ else ⌊q⌋ + 1

/-- Python's `round(q, n)`: scale by `10^n`, round half to even, unscale. -/
def pyRound (q : ℚ) (n : ℕ) : ℚ :=
  ((rhe (q * 10 ^ n) : ℚ)) / 10 ^ n

/-- Whitespace for Python's `str.strip()` (the source only ever strips
ASCII whitespace). -/
def isPySpace (c : Char) : Bool :=
  c = ' ' ∨ c = '\t' ∨ c = '\n' ∨ c = '\r' ∨ c = Char.ofNat 11 ∨ c = Char.ofNat 12

/-- `str.strip()` as a pure list computation (kernel-reducible). -/
def strStrip (s : String) : String :=
  ⟨((s.data.dropWhile isPySpace).reverse.dropWhile isPySpace).reverse⟩

/-- ASCII `str.lower()` (all strings compared by the source are ASCII). -/
def strLower (s : String) : String :=
  ⟨s.data.map (fun c =>
    if 'A' ≤ c ∧ c ≤ 'Z' then Char.ofNat (c.toNat + 32) else c)⟩

/-- One explainability entry: `{"feature": ..., "direction": ..., "contribution": ...}`. -/
structure Factor where
  feature : String
  direction : String
  contribution : ℚ
deriving DecidableEq, Repr

/-- The `band_thresholds` dict of a model payload; each key may be absent
(or unparsable, which `_to_band` treats the same way). -/
structure BandThresholds where
  medium : Option ℚ
  high : Option ℚ
deriving DecidableEq, Repr

/-- A feature dictionary as consumed by the scoring service.  Core keys are
always present in rows built by `patient_to_feature_dict`; extension keys
(`*_raw`, `serious_condition_score`, the `high_risk_*` and other counts) are
read via `.get` and may be absent (`none`). -/
structure FeatureRow where
  age_years : ℚ
  days_since_admission : ℚ
  medication_count : ℚ
  history_count : ℚ
  past_history_count : ℚ
  gender : String
  status : String
  age_years_raw : Option ℚ
  days_since_admission_raw : Option ℚ
  serious_condition_score : Option ℚ
  high_risk_history_count : Option ℚ
  high_risk_prescription_count : Option ℚ
  high_risk_allergy_count : Option ℚ
  allergy_count : Option ℚ
  current_prescription_count : Option ℚ
deriving DecidableEq, Repr

/-- Python's `a or b` on an optional number and a number: `None` and `0.0`
are falsy, every other number is truthy. -/
def chainOr (o : Option ℚ) (d : ℚ) : ℚ :=
  match o with
  | none => d
  | some v => if v = 0 then d else v

/-- `feature_row.get(k) or 0.0` for an extension key. -/
def orZero (o : Option ℚ) : ℚ := o.getD 0

/-- `float(feature_row.get("days_since_admission_raw") or feature_row.get("days_since_admission") or 0.0)`. -/
def rawDaysOf (row : FeatureRow) : ℚ :=
  chainOr row.days_since_admission_raw row.days_since_admission

/-- `float(feature_row.get("age_years_raw") or feature_row.get("age_years") or 0.0)`. -/
def ageRawOf (row : FeatureRow) : ℚ :=
  chainOr row.age_years_raw row.age_years

/-- `str(feature_row.get("status", "") or "").strip().lower()`. -/
def statusNorm (row : FeatureRow) : String := strLower (strStrip row.status)

/-- `heuristic_risk_score` from `features.py`: additive rule-based score,
clamped to `[0.01, 0.95]`. -/
def heuristic_risk_score (row : FeatureRow) : ℚ :=
  let s0 : ℚ := 0.08
  let s1 := if row.status = "critical" then s0 + 0.20 else s0
  let s2 := if (if row.days_since_admission = 0 then (0:ℚ) else row.days_since_admission) ≥ 14 then s1 + 0.10 else s1
  let s3 := if (if row.age_years = 0 then (0:ℚ) else row.age_years) ≥ 75 then s2 + 0.08 else s2
  let s4 := if (if row.history_count = 0 then (0:ℚ) else row.history_count) ≥ 4 then s3 + 0.06 else s3
  let s5 := if (if row.past_history_count = 0 then (0:ℚ) else row.past_history_count) ≥ 2 then s4 + 0.04 else s4
  let s6 := if (if row.medication_count = 0 then (0:ℚ) else row.medication_count) = 0 then s5 - 0.04 else s5
  max 0.01 (min 0.95 s6)

/-- `top_heuristic_factors` from `features.py`. -/
def top_heuristic_factors (row : FeatureRow) (score : ℚ) : List Factor :=
  let fs : List Factor :=
    (if row.status = "critical" then [⟨"status=critical", "up", 0.20⟩] else [])
    ++ (if row.days_since_admission ≥ 14 then [⟨"days_since_admission>=14", "up", 0.10⟩] else [])
    ++ (if row.age_years ≥ 75 then [⟨"age>=75", "up", 0.08⟩] else [])
    ++ (if row.history_count ≥ 4 then [⟨"history_count>=4", "up", 0.06⟩] else [])
    ++ (if row.past_history_count ≥ 2 then [⟨"past_history_count>=2", "up", 0.04⟩] else [])
    ++ (if row.medication_count = 0 then [⟨"medication_count=0", "down", -0.04⟩] else [])
  if fs = [] then [⟨"baseline_risk", "up", pyRound score 4⟩] else fs.take 5

/-- `_normalized_band_thresholds`: defaults `(0.15, 0.35)`, forcing
`high = medium + 0.05` whenever `high ≤ medium`. -/
def normalizedBandThresholds (thr : Option BandThresholds) : ℚ × ℚ :=
  let medium := (thr.bind BandThresholds.medium).getD 0.15
  let high := (thr.bind BandThresholds.high).getD 0.35
  let high := if high ≤ medium then medium + 0.05 else high
  (medium, high)

/-- `_to_band`: map a probability to "low"/"medium"/"high" using the
(normalized) thresholds. -/
def toBand (prob : ℚ) (thr : Option BandThresholds) : String :=
  let mh := normalizedBandThresholds thr
  if prob ≥ mh.2 then "high"
  else if prob ≥ mh.1 then "medium"
  else "low"

/-! ## `_context_adjust_probability` (service.py)

The sequential mutation of `adjusted` in the source is rendered as a chain
of definitions `ctxA0 … ctxA9`, one per statement group, followed by the
final clamp; the recorded factor list is rebuilt from the same conditions
and intermediate values. -/

/-- Initial clamp `float(max(0.0, min(1.0, probability)))`. -/
def ctxA0 (p : ℚ) : ℚ := max 0 (min 1 p)

/-- Status branch: critical raises to 0.45 when below; discharged subtracts
`min(0.10, adjusted * 0.40)`. -/
def ctxA1 (p : ℚ) (row : FeatureRow) : ℚ :=
  if statusNorm row = "critical" ∧ ctxA0 p < 0.45 then 0.45
  else if statusNorm row = "discharged" then ctxA0 p - min 0.10 (ctxA0 p * 0.40)
  else ctxA0 p

/-- `raw_days >= 60` bonus. -/
def ctxA2 (p : ℚ) (row : FeatureRow) : ℚ :=
  if rawDaysOf row ≥ 60 then ctxA1 p row + 0.03 else ctxA1 p row

/-- `raw_days >= 180` bonus. -/
def ctxA3 (p : ℚ) (row : FeatureRow) : ℚ :=
  if rawDaysOf row ≥ 180 then ctxA2 p row + 0.05 else ctxA2 p row

/-- `severe_bonus = min(0.12, severe_score / 300.0)`, added when positive. -/
def severeBonus (row : FeatureRow) : ℚ :=
  min 0.12 (orZero row.serious_condition_score / 300)

/-- Serious-condition bonus step. -/
def ctxA4 (p : ℚ) (row : FeatureRow) : ℚ :=
  if severeBonus row > 0 then ctxA3 p row + severeBonus row else ctxA3 p row

/-- `high_risk_history_count >= 1` bonus. -/
def ctxA5 (p : ℚ) (row : FeatureRow) : ℚ :=
  if orZero row.high_risk_history_count ≥ 1 then ctxA4 p row + 0.07 else ctxA4 p row

/-- `high_risk_prescription_count >= 1` bonus. -/
def ctxA6 (p : ℚ) (row : FeatureRow) : ℚ :=
  if orZero row.high_risk_prescription_count ≥ 1 then ctxA5 p row + 0.05 else ctxA5 p row

/-- `high_risk_allergy_count >= 1` bonus. -/
def ctxA7 (p : ℚ) (row : FeatureRow) : ℚ :=
  if orZero row.high_risk_allergy_count ≥ 1 then ctxA6 p row + 0.04 else ctxA6 p row

/-- `current_prescription_count >= 3` bonus. -/
def ctxA8 (p : ℚ) (row : FeatureRow) : ℚ :=
  if orZero row.current_prescription_count ≥ 3 then ctxA7 p row + 0.03 else ctxA7 p row

/-- Age policy override: raw age ≥ 110 floors the probability at
`min(0.95, high + 0.02)`; raw age in `[100, 110)` floors it at `high`. -/
def ctxA9 (p : ℚ) (row : FeatureRow) (thr : Option BandThresholds) : ℚ :=
  let high := (normalizedBandThresholds thr).2
  if ageRawOf row ≥ 110 then
    (if ctxA8 p row < min 0.95 (high + 0.02) then min 0.95 (high + 0.02) else ctxA8 p row)
  else if ageRawOf row ≥ 100 then
    (if ctxA8 p row < high then high else ctxA8 p row)
  else ctxA8 p row

/-- Final probability of `_context_adjust_probability`:
clamp of the adjustment chain to `[0.01, 0.95]`. -/
def ctxAdjustProb (p : ℚ) (row : FeatureRow) (thr : Option BandThresholds) : ℚ :=
  max 0.01 (min 0.95 (ctxA9 p row thr))

/-- Factor list recorded by `_context_adjust_probability`, in append order. -/
def ctxAdjustFactors (p : ℚ) (row : FeatureRow) (thr : Option BandThresholds) : List Factor :=
  let high := (normalizedBandThresholds thr).2
  (if statusNorm row = "critical" ∧ ctxA0 p < 0.45 then
      [⟨"status=critical", "up", pyRound (0.45 - ctxA0 p) 4⟩]
    else if statusNorm row = "discharged" then
      [⟨"status=discharged", "down", pyRound (-(min 0.10 (ctxA0 p * 0.40))) 4⟩]
    else [])
  ++ (if rawDaysOf row ≥ 60 then [⟨"days_since_admission_raw>=60", "up", 0.03⟩] else [])
  ++ (if rawDaysOf row ≥ 180 then [⟨"days_since_admission_raw>=180", "up", 0.05⟩] else [])
  ++ (if severeBonus row > 0 then [⟨"serious_conditions", "up", pyRound (severeBonus row) 4⟩] else [])
  ++ (if orZero row.high_risk_history_count ≥ 1 then [⟨"high_risk_history_count>=1", "up", 0.07⟩] else [])
  ++ (if orZero row.high_risk_prescription_count ≥ 1 then [⟨"high_risk_prescription_count>=1", "up", 0.05⟩] else [])
  ++ (if orZero row.high_risk_allergy_count ≥ 1 then [⟨"high_risk_allergy_count>=1", "up", 0.04⟩] else [])
  ++ (if orZero row.current_prescription_count ≥ 3 then [⟨"current_prescription_count>=3", "up", 0.03⟩] else [])
  ++ (if ageRawOf row ≥ 110 ∧ ctxA8 p row < min 0.95 (high + 0.02) then
        [⟨"age_years_raw>=110", "up", pyRound (min 0.95 (high + 0.02) - ctxA8 p row) 4⟩]
      else if ¬ (ageRawOf row ≥ 110) ∧ ageRawOf row ≥ 100 ∧ ctxA8 p row < high then
        [⟨"age_years_raw>=100", "up", pyRound (high - ctxA8 p row) 4⟩]
      else [])

/-- `_context_adjust_probability` returns the clamped adjusted probability
together with the recorded factors. -/
def ctxAdjust (p : ℚ) (row : FeatureRow) (thr : Option BandThresholds) :
    ℚ × List Factor :=
  (ctxAdjustProb p row thr, ctxAdjustFactors p row thr)

/-! ## `_seriousness_assessment` and `_risk_from_seriousness` (service.py) -/

/-- The clinical floor of `_seriousness_assessment`. -/
def clinicalFloor (row : FeatureRow) : ℚ :=
  let serious := orZero row.serious_condition_score
  let hrh := orZero row.high_risk_history_count ≥ 1
  let hra := orZero row.high_risk_allergy_count ≥ 1
  let hrp := orZero row.high_risk_prescription_count ≥ 1
  if serious ≥ 15 ∨ (hrh ∧ hrp) then 38
  else if serious ≥ 8 ∨ hrh ∨ (hra ∧ hrp) then 28
  else if hra ∨ hrp ∨ orZero row.allergy_count ≥ 2 ∨
      (row.history_count ≥ 4 ∨ row.past_history_count ≥ 2) then 18
  else 1

/-- The capped context adjustment of `_seriousness_assessment`. -/
def seriousnessAdjustment (row : FeatureRow) : ℚ :=
  let status := statusNorm row
  let a0 : ℚ := if status = "critical" then 12 else if status = "discharged" then -12 else 0
  let a1 := a0 + (if ageRawOf row ≥ 75 then 3 else 0)
  let a2 := a1 + (if rawDaysOf row ≥ 14 then 2 else 0)
    + (if rawDaysOf row ≥ 60 then 2 else 0) + (if rawDaysOf row ≥ 180 then 3 else 0)
  let a3 := a2 + (if row.history_count ≥ 4 then 2 else 0)
    + (if row.past_history_count ≥ 2 then 2 else 0)
    + (if orZero row.allergy_count ≥ 2 then 1 else 0)
  let a4 := a3 + min 3 (orZero row.high_risk_allergy_count * 2)
  let a5 := a4 + (if orZero row.current_prescription_count ≥ 3 then 2 else 0)
    + min 4 (orZero row.high_risk_prescription_count * 2)
  let a6 := a5 + (if orZero row.high_risk_history_count ≥ 1 then 4 else 0)
    + (if row.medication_count = 0 then 1 else 0)
  let a7 := a6 + min 8 (orZero row.serious_condition_score * (2/5))
  max (-12) (min 18 a7)

/-- The clamped 0–100 score of `_seriousness_assessment` before rounding. -/
def seriousnessScore (probability : ℚ) (risk_band : String) (row : FeatureRow) : ℚ :=
  let base := max (probability * 55) (clinicalFloor row)
  let score := base + seriousnessAdjustment row
  let score :=
    if risk_band = "high" then max score 52
    else if risk_band = "medium" then max score 32
    else score
  max 0 (min 100 score)

/-- `_seriousness_assessment`: returns `(round(score, 1), level, recommendation)`. -/
def seriousnessAssessment (probability : ℚ) (risk_band : String) (row : FeatureRow) :
    ℚ × String × String :=
  let score := seriousnessScore probability risk_band row
  if score ≥ 70 then
    (pyRound score 1, "critical", "Immediate bedside assessment (target: within 15 minutes).")
  else if score ≥ 52 then
    (pyRound score 1, "high", "Urgent clinician assessment (target: within 30 minutes).")
  else if score ≥ 28 then
    (pyRound score 1, "moderate", "Priority reassessment and monitoring (target: within 4 hours).")
  else
    (pyRound score 1, "low", "Routine monitoring; reassess on any status change.")

/-- `_risk_from_seriousness`: re-derive `(risk_probability, risk_band)` from
the seriousness factor and level. -/
def riskFromSeriousness (seriousness_factor : ℚ) (seriousness_level : String) :
    ℚ × String :=
  let probability := max 0.01 (min 0.95 (seriousness_factor / 100))
  let level := strLower (strStrip seriousness_level)
  let band :=
    if level = "high" ∨ level = "critical" then "high"
    else if level = "moderate" then "medium"
    else "low"
  (pyRound probability 4, band)

/-! ## Factor merging and the prediction record (service.py) -/

/-- Stable insertion sort by descending absolute contribution, matching the
stable `list.sort(key=abs(contribution), reverse=True)` of the source. -/
def insertByAbs (f : Factor) : List Factor → List Factor
  | [] => [f]
  | g :: gs => if |f.contribution| > |g.contribution|
      then f :: g :: gs else g :: insertByAbs f gs

/-- Sort factors by descending absolute contribution (stable). -/
def sortByAbs : List Factor → List Factor
  | [] => []
  | f :: fs => insertByAbs f (sortByAbs fs)

/-- `_merge_top_factors`: context factors first, drop near-zero
contributions, sort by absolute contribution, keep at most 5. -/
def mergeTopFactors (base extra : List Factor) : List Factor :=
  let merged := (extra ++ base).filter (fun f => |f.contribution| ≥ 1/1000000000)
  let merged := sortByAbs merged
  if merged ≠ [] then merged.take 5
  else (if base ≠ [] then base else extra).take 5

/-- The `RiskPrediction` dataclass. -/
structure RiskPrediction where
  risk_probability : ℚ
  risk_band : String
  model_version : String
  top_factors : List Factor
  scoring_mode : String
  seriousness_factor : ℚ
  seriousness_level : String
  assessment_recommendation : String
deriving DecidableEq, Repr

/-! ## Model payload and artifact loading (service.py)

Only the parts of a joblib payload that `predict` consumes are modelled.
`pipelineProb` is the (opaque) value of `predict_proba(...)[:, 1][0]`
(through the calibrator when present); `none` means that call — or the
factor extraction inside the same `try` block — raised, which sends
`predict` down the heuristic fallback path.  `topFactors` stands for the
result of `_top_model_factors`. -/

structure ModelPayload where
  pipelineProb : Option ℚ
  bandThresholds : Option BandThresholds
  modelVersion : Option String
  topFactors : List Factor
deriving DecidableEq, Repr

/-- One file matched by the `risk_model_*.joblib` glob; `payload = none`
means `joblib.load` raised on it. -/
structure Artifact where
  name : String
  payload : Option ModelPayload
deriving DecidableEq, Repr

/-- The filesystem/import state `_load_latest_model_payload` depends on.
`artifacts` is the glob result, already in the attempt order produced by
the semantic-version/mtime sort and the configured-version preference. -/
structure LoaderEnv where
  dirExists : Bool
  artifacts : List Artifact
  joblibOk : Bool
deriving DecidableEq, Repr

/-- `_load_latest_model_payload`: `None` when the directory is missing, no
file matches, or joblib cannot be imported; otherwise the first candidate
whose load succeeds, every failure being skipped. -/
def loadLatest (env : LoaderEnv) : Option ModelPayload :=
  if env.dirExists = false then none
  else if env.artifacts.isEmpty then none
  else if env.joblibOk = false then none
  else env.artifacts.findSome? Artifact.payload

/-- The heuristic-mode body of `predict` (used both when no payload loads
and when the supervised prediction raises; the two source blocks are
identical). -/
def heuristicPrediction (row : FeatureRow) : RiskPrediction :=
  let score0 := heuristic_risk_score row
  let score := ctxAdjustProb score0 row none
  let contextFactors := ctxAdjustFactors score0 row none
  let preBand := toBand score none
  let s := seriousnessAssessment score preBand row
  let rp := riskFromSeriousness s.1 s.2.1
  { risk_probability := rp.1
    risk_band := rp.2
    model_version := "heuristic-v1"
    top_factors := mergeTopFactors (top_heuristic_factors row score) contextFactors
    scoring_mode := "heuristic"
    seriousness_factor := s.1
    seriousness_level := s.2.1
    assessment_recommendation := s.2.2 }

/-- `predict` after feature building, as a function of the loaded payload
(if any) and the feature row. -/
def predictRow (payload? : Option ModelPayload) (row : FeatureRow) : RiskPrediction :=
  match payload? with
  | none => heuristicPrediction row
  | some payload =>
    match payload.pipelineProb with
    | none => heuristicPrediction row
    | some prob0 =>
      let prob1 := max 0 (min 1 prob0)
      let prob := ctxAdjustProb prob1 row payload.bandThresholds
      let contextFactors := ctxAdjustFactors prob1 row payload.bandThresholds
      let preBand := toBand prob payload.bandThresholds
      let s := seriousnessAssessment prob preBand row
      let rp := riskFromSeriousness s.1 s.2.1
      { risk_probability := rp.1
        risk_band := rp.2
        model_version := payload.modelVersion.getD "model-unknown"
        top_factors := mergeTopFactors payload.topFactors contextFactors
        scoring_mode := "supervised"
        seriousness_factor := s.1
        seriousness_level := s.2.1
        assessment_recommendation := s.2.2 }

/-! ## `patient_to_feature_dict` (features.py)

Patient attributes are read with `getattr(..., default)`, so a missing
attribute — or a `None` patient — yields the default.  Date strings are
abstracted to their `_safe_date` outcome: `missing` (empty/absent),
`invalid` (unparsable), or `valid day` (the parsed date as a day number);
`today - dob` is then exact day arithmetic. -/

inductive DateVal where
  | missing
  | invalid
  | valid (day : ℤ)
deriving DecidableEq, Repr

/-- `_safe_date`: `None` on empty or unparsable input. -/
def safeDate : DateVal → Option ℤ
  | .missing => none
  | .invalid => none
  | .valid d => some d

/-- A patient object; every field may be absent (`getattr` default). -/
structure Patient where
  date_of_birth : DateVal
  admission_date : DateVal
  medications : Option (List String)
  medical_history : Option (List String)
  past_medical_history : Option (List String)
  status : Option String
  gender : Option String
deriving DecidableEq, Repr

/-- `_as_list` restricted to the list/absent shapes: strip entries, drop
empties. -/
def asList (o : Option (List String)) : List String :=
  match o with
  | none => []
  | some l => (l.map strStrip).filter (fun s => s ≠ "")

/-- `(value or "unknown").strip().lower() or "unknown"`. -/
def normOrUnknown (o : Option String) : String :=
  let s := o.getD ""
  let s := if s = "" then "unknown" else s
  let s := strLower (strStrip s)
  if s = "" then "unknown" else s

/-- `patient_to_feature_dict`: bounded age and stay, counts, normalized
categories.  A `none` patient behaves exactly like a patient with every
attribute absent, because every `getattr` call carries a default.  Note
that no `*_raw` key and none of the service's extension keys are emitted. -/
def patient_to_feature_dict (p : Option Patient) (today : ℤ) : FeatureRow :=
  let dob := (p.map Patient.date_of_birth).getD .missing
  let admission := (p.map Patient.admission_date).getD .missing
  let age0 : Option ℤ := (safeDate dob).map (fun d => (today - d).fdiv 365)
  let days0 : Option ℤ := (safeDate admission).map (fun d => today - d)
  let age : Option ℤ := age0.map (fun a => max 0 (min 110 a))
  let days : Option ℤ := days0.map (fun d => max 0 (min 30 d))
  { age_years := match age with
      | some a => if a ≥ 0 then (a : ℚ) else 0
      | none => 0
    days_since_admission := match days with
      | some d => (d : ℚ)
      | none => 0
    medication_count := ((asList (p.bind Patient.medications)).length : ℚ)
    history_count := ((asList (p.bind Patient.medical_history)).length : ℚ)
    past_history_count := ((asList (p.bind Patient.past_medical_history)).length : ℚ)
    gender := normOrUnknown (p.bind Patient.gender)
    status := normOrUnknown (p.bind Patient.status)
    age_years_raw := none
    days_since_admission_raw := none
    serious_condition_score := none
    high_risk_history_count := none
    high_risk_prescription_count := none
    high_risk_allergy_count := none
    allergy_count := none
    current_prescription_count := none }

/-- Full `predict` entry point: build the feature row, try to load the
newest artifact, score. -/
def predict (env : LoaderEnv) (p : Option Patient) (today : ℤ) : RiskPrediction :=
  predictRow (loadLatest env) (patient_to_feature_dict p today)

/-! ## Band thresholds persisted by the trainer (train.py) -/

/-- The `band_thresholds` entry written by `_fit_and_save_pipeline`:
`medium = clamp(base_rate, 0.08, 0.20)`, `high = max(medium + 0.05,
min(0.35, base_rate * 2))`, each persisted as `round(..., 4)`. -/
def band_thresholds_of (positives n : ℕ) : ℚ × ℚ :=
  let base_rate : ℚ := (positives : ℚ) / (n : ℚ)
  let medium := max 0.08 (min 0.20 base_rate)
  let high := max (medium + 0.05) (min 0.35 (base_rate * 2))
  (pyRound medium 4, pyRound high 4)

/-- The seriousness factor produced by the composed
context-adjustment → banding → seriousness-assessment computation, exactly
as `predict` wires these calls together (in heuristic mode `thr = none`;
in supervised mode `thr` is the payload's `band_thresholds`). -/
def seriousnessPipeline (p : ℚ) (row : FeatureRow) (thr : Option BandThresholds) : ℚ :=
  (seriousnessAssessment (ctxAdjustProb p row thr) (toBand (ctxAdjustProb p row thr) thr) row).1

/-- Rank of a band name, for ordering low < medium < high. -/
def bandRank (b : String) : ℕ :=
  if b = "high" then 2 else if b = "medium" then 1 else 0

/-- The fixed seriousness-level → band mapping described by the spec:
critical/high → high, moderate → medium, anything else → low. -/
def levelToBand (level : String) : String :=
  if level = "high" ∨ level = "critical" then "high"
  else if level = "moderate" then "medium"
  else "low"

/-! ## Concrete inputs used by scenario claims and witnesses -/

/-- A feature row with every count at zero and unknown status/gender
(exactly what `patient_to_feature_dict` yields for an attribute-less patient). -/
def zeroRow : FeatureRow :=
  { age_years := 0, days_since_admission := 0, medication_count := 0,
    history_count := 0, past_history_count := 0, gender := "unknown",
    status := "unknown", age_years_raw := none, days_since_admission_raw := none,
    serious_condition_score := none, high_risk_history_count := none,
    high_risk_prescription_count := none, high_risk_allergy_count := none,
    allergy_count := none, current_prescription_count := none }

/-- Minimal-feature row whose status is "critical". -/
def criticalMinRow : FeatureRow :=
  { zeroRow with status := "critical" }

/-- Patient aged 115 at day 42000 (born on day 25 = 42000 − 115·365),
status "active", no other risk markers. -/
def agedPatient : Patient :=
  ⟨.valid 25, .missing, none, none, none, some "active", none⟩

/-- Patient aged 115 admitted 60 days before day 42000. -/
def stayPatient : Patient :=
  ⟨.valid 25, .valid (42000 - 60), none, none, none, some "active", none⟩

/-- Patient with every attribute absent. -/
def emptyPatient : Patient :=
  ⟨.missing, .missing, none, none, none, none, none⟩

/-- Loader environment with no artifact directory (pure heuristic mode). -/
def noArtifactEnv : LoaderEnv := ⟨false, [], true⟩

/-- Loader environment whose only matching artifact fails to load. -/
def corruptEnv : LoaderEnv := ⟨true, [⟨"risk_model_a.joblib", none⟩], true⟩

/-- A loadable payload, used to show the joblib-import guard wins even over
valid artifact files. -/
def okPayload : ModelPayload := ⟨some 0.5, none, some "risk-v1", []⟩

/-- Loader environment with a valid artifact but no importable joblib. -/
def noJoblibEnv : LoaderEnv :=
  ⟨true, [⟨"risk_model_risk-v1-20240101000000.joblib", some okPayload⟩], false⟩

/-- The feature row `patient_to_feature_dict` produces for `agedPatient`
at day 42000: raw age 115 is clamped to 110, everything else at defaults. -/
def agedRow : FeatureRow :=
  { age_years := 110, days_since_admission := 0, medication_count := 0,
    history_count := 0, past_history_count := 0, gender := "unknown",
    status := "active", age_years_raw := none, days_since_admission_raw := none,
    serious_condition_score := none, high_risk_history_count := none,
    high_risk_prescription_count := none, high_risk_allergy_count := none,
    allergy_count := none, current_prescription_count := none }

/-! ## General lemmas -/

theorem rhe_ge_floor (q : ℚ) : ⌊q⌋ ≤ rhe q := by
  unfold rhe
  split_ifs <;> omega

theorem rhe_le_floor_add_one (q : ℚ) : rhe q ≤ ⌊q⌋ + 1 := by
  unfold rhe
  split_ifs <;> omega

theorem rhe_mono {q₁ q₂ : ℚ} (h : q₁ ≤ q₂) : rhe q₁ ≤ rhe q₂ := by
  rcases lt_or_eq_of_le (Int.floor_mono h) with hf | hf
  · calc rhe q₁ ≤ ⌊q₁⌋ + 1 := rhe_le_floor_add_one q₁
      _ ≤ ⌊q₂⌋ := by omega
      _ ≤ rhe q₂ := rhe_ge_floor q₂
  · unfold rhe
    rw [hf]
    have hr : q₁ - (⌊q₂⌋ : ℚ) ≤ q₂ - (⌊q₂⌋ : ℚ) := by linarith
    split_ifs <;> first | omega | linarith

theorem abs_rhe_sub_le (q : ℚ) : |(rhe q : ℚ) - q| ≤ 1/2 := by
  have h1 : (⌊q⌋ : ℚ) ≤ q := Int.floor_le q
  have h2 : q < (⌊q⌋ : ℚ) + 1 := Int.lt_floor_add_one q
  unfold rhe
  split_ifs with ha hb hc <;>
    (rw [abs_le]; push_cast; constructor <;> linarith)

theorem pyRound_mono {q₁ q₂ : ℚ} (n : ℕ) (h : q₁ ≤ q₂) :
    pyRound q₁ n ≤ pyRound q₂ n := by
  unfold pyRound
  have hp : (0 : ℚ) ≤ 10 ^ n := by positivity
  have hm : q₁ * 10 ^ n ≤ q₂ * 10 ^ n := by nlinarith
  have h2 := rhe_mono hm
  gcongr


theorem abs_pyRound_sub_le (q : ℚ) (n : ℕ) :
    |pyRound q n - q| ≤ 1 / (2 * 10 ^ n) := by
  have hp : (0 : ℚ) < 10 ^ n := by positivity
  have h := abs_rhe_sub_le (q * 10 ^ n)
  have key : pyRound q n - q = ((rhe (q * 10 ^ n) : ℚ) - q * 10 ^ n) / 10 ^ n := by
    unfold pyRound
    field_simp
    ring
  rw [key, abs_div, abs_of_pos hp, div_le_div_iff hp (by positivity)]
  nlinarith [abs_nonneg ((rhe (q * 10 ^ n) : ℚ) - q * 10 ^ n)]

theorem toBand_cases (a : ℚ) (thr : Option BandThresholds) :
    toBand a thr = "high" ∨ toBand a thr = "medium" ∨ toBand a thr = "low" := by
  unfold toBand
  dsimp only
  split_ifs <;> simp

theorem toBand_rank_mono (thr : Option BandThresholds) {a b : ℚ} (h : a ≤ b) :
    bandRank (toBand a thr) ≤ bandRank (toBand b thr) := by
  unfold toBand
  dsimp only
  split_ifs <;> first | decide | (exfalso; linarith)

theorem seriousnessAssessment_fst (p : ℚ) (b : String) (row : FeatureRow) :
    (seriousnessAssessment p b row).1 = pyRound (seriousnessScore p b row) 1 := by
  unfold seriousnessAssessment
  dsimp only
  split_ifs <;> rfl

theorem seriousnessAssessment_level_cases (p : ℚ) (b : String) (row : FeatureRow) :
    (seriousnessAssessment p b row).2.1 = "critical"
      ∨ (seriousnessAssessment p b row).2.1 = "high"
      ∨ (seriousnessAssessment p b row).2.1 = "moderate"
      ∨ (seriousnessAssessment p b row).2.1 = "low" := by
  unfold seriousnessAssessment
  dsimp only
  split_ifs <;> simp

theorem seriousnessScore_nonneg (p : ℚ) (b : String) (row : FeatureRow) :
    0 ≤ seriousnessScore p b row := le_max_left 0 _

theorem seriousnessScore_le_100 (p : ℚ) (b : String) (row : FeatureRow) :
    seriousnessScore p b row ≤ 100 :=
  max_le (by norm_num) (min_le_left _ _)

theorem pyRound_eq_self_of_int (q : ℚ) (n : ℕ) (z : ℤ) (h : q * 10 ^ n = (z : ℚ)) :
    pyRound q n = q := by
  unfold pyRound rhe
  rw [h, Int.floor_intCast]
  rw [if_pos (by norm_num : (z : ℚ) - (z : ℚ) < 1/2)]
  have hp : (10 : ℚ) ^ n ≠ 0 := by positivity
  field_simp [← h]

theorem pyRound_zero_one : pyRound 0 1 = 0 :=
  pyRound_eq_self_of_int 0 1 0 (by norm_num)

theorem pyRound_hundred_one : pyRound 100 1 = 100 :=
  pyRound_eq_self_of_int 100 1 1000 (by norm_num)

theorem seriousnessAssessment_fst_bounds (p : ℚ) (b : String) (row : FeatureRow) :
    0 ≤ (seriousnessAssessment p b row).1 ∧ (seriousnessAssessment p b row).1 ≤ 100 := by
  rw [seriousnessAssessment_fst]
  constructor
  · calc (0:ℚ) = pyRound 0 1 := pyRound_zero_one.symm
      _ ≤ pyRound (seriousnessScore p b row) 1 :=
          pyRound_mono 1 (seriousnessScore_nonneg p b row)
  · calc pyRound (seriousnessScore p b row) 1
        ≤ pyRound 100 1 := pyRound_mono 1 (seriousnessScore_le_100 p b row)
      _ = 100 := pyRound_hundred_one

theorem riskFromSeriousness_fst (sf : ℚ) (lvl : String) :
    (riskFromSeriousness sf lvl).1 = pyRound (max 0.01 (min 0.95 (sf / 100))) 4 := rfl

theorem riskFromSeriousness_snd_levelToBand (sf : ℚ) {lvl : String}
    (h : lvl = "critical" ∨ lvl = "high" ∨ lvl = "moderate" ∨ lvl = "low") :
    (riskFromSeriousness sf lvl).2 = levelToBand lvl := by
  rcases h with h | h | h | h <;> subst h <;> rfl

/-! ## Monotonicity of the pipeline in `serious_condition_score` -/

theorem ladder_mono {C₁ C₁' C₂ C₂' C₃ : Prop}
    [Decidable C₁] [Decidable C₁'] [Decidable C₂] [Decidable C₂'] [Decidable C₃]
    (i1 : C₁ → C₁') (i2 : C₂ → C₂') :
    (if C₁ then (38:ℚ) else if C₂ then 28 else if C₃ then 18 else 1)
      ≤ (if C₁' then 38 else if C₂' then 28 else if C₃ then 18 else 1) := by
  split_ifs <;>
    first
      | (exact absurd (i1 ‹C₁›) ‹¬C₁'›)
      | (exact absurd (i2 ‹C₂›) ‹¬C₂'›)
      | norm_num

theorem clinicalFloor_mono (row : FeatureRow) {s₁ s₂ : ℚ} (h : s₁ ≤ s₂) :
    clinicalFloor {row with serious_condition_score := some s₁}
      ≤ clinicalFloor {row with serious_condition_score := some s₂} := by
  dsimp only [clinicalFloor, orZero, Option.getD]
  exact ladder_mono
    (Or.imp (fun hx => by linarith) id)
    (fun hx => hx.elim (fun h' => Or.inl (by linarith)) Or.inr)

theorem ctxA4_mono (p : ℚ) (row : FeatureRow) {s₁ s₂ : ℚ} (h : s₁ ≤ s₂) :
    ctxA4 p {row with serious_condition_score := some s₁}
      ≤ ctxA4 p {row with serious_condition_score := some s₂} := by
  have hb : min (0.12:ℚ) (s₁/300) ≤ min 0.12 (s₂/300) := min_le_min le_rfl (by linarith)
  have he : ctxA3 p {row with serious_condition_score := some s₁}
      = ctxA3 p {row with serious_condition_score := some s₂} := rfl
  dsimp only [ctxA4, severeBonus, orZero, Option.getD]
  rw [he]
  split_ifs <;> linarith

theorem ctxA8_mono (p : ℚ) (row : FeatureRow) {s₁ s₂ : ℚ} (h : s₁ ≤ s₂) :
    ctxA8 p {row with serious_condition_score := some s₁}
      ≤ ctxA8 p {row with serious_condition_score := some s₂} := by
  have h4 := ctxA4_mono p row h
  dsimp only [ctxA8, ctxA7, ctxA6, ctxA5, orZero, Option.getD]
  split_ifs <;> linarith

theorem ctxA9_mono (p : ℚ) (row : FeatureRow) (thr : Option BandThresholds)
    {s₁ s₂ : ℚ} (h : s₁ ≤ s₂) :
    ctxA9 p {row with serious_condition_score := some s₁} thr
      ≤ ctxA9 p {row with serious_condition_score := some s₂} thr := by
  have h8 := ctxA8_mono p row h
  dsimp only [ctxA9, ageRawOf, chainOr]
  split_ifs <;> linarith

theorem ctxAdjustProb_mono (p : ℚ) (row : FeatureRow) (thr : Option BandThresholds)
    {s₁ s₂ : ℚ} (h : s₁ ≤ s₂) :
    ctxAdjustProb p {row with serious_condition_score := some s₁} thr
      ≤ ctxAdjustProb p {row with serious_condition_score := some s₂} thr := by
  have h9 := ctxA9_mono p row thr h
  dsimp only [ctxAdjustProb]
  exact max_le_max le_rfl (min_le_min le_rfl h9)

theorem clamp100_mono {x y : ℚ} (h : x ≤ y) :
    max 0 (min 100 x) ≤ max 0 (min 100 y) :=
  max_le_max le_rfl (min_le_min le_rfl h)

theorem bandstepHigh (x : ℚ) :
    (if ("high":String) = "high" then max x 52
      else if ("high":String) = "medium" then max x 32 else x) = max x 52 := by
  rw [if_pos rfl]

theorem bandstepMedium (x : ℚ) :
    (if ("medium":String) = "high" then max x 52
      else if ("medium":String) = "medium" then max x 32 else x) = max x 32 := by
  rw [if_neg (by decide), if_pos rfl]

theorem bandstepLow (x : ℚ) :
    (if ("low":String) = "high" then max x 52
      else if ("low":String) = "medium" then max x 32 else x) = x := by
  rw [if_neg (by decide), if_neg (by decide)]

set_option maxHeartbeats 2000000 in
theorem seriousnessScore_mono (thr : Option BandThresholds) (row : FeatureRow)
    {a₁ a₂ s₁ s₂ : ℚ} (ha : a₁ ≤ a₂) (hs : s₁ ≤ s₂) :
    seriousnessScore a₁ (toBand a₁ thr) {row with serious_condition_score := some s₁}
      ≤ seriousnessScore a₂ (toBand a₂ thr) {row with serious_condition_score := some s₂} := by
  have hfloor := clinicalFloor_mono row hs
  have hadj : seriousnessAdjustment {row with serious_condition_score := some s₁}
      ≤ seriousnessAdjustment {row with serious_condition_score := some s₂} := by
    dsimp only [seriousnessAdjustment, orZero, Option.getD, statusNorm, rawDaysOf,
      ageRawOf, chainOr]
    gcongr <;> linarith
  have hx : max (a₁ * 55) (clinicalFloor {row with serious_condition_score := some s₁})
        + seriousnessAdjustment {row with serious_condition_score := some s₁}
      ≤ max (a₂ * 55) (clinicalFloor {row with serious_condition_score := some s₂})
        + seriousnessAdjustment {row with serious_condition_score := some s₂} :=
    add_le_add (max_le_max (by linarith) hfloor) hadj
  have hrank := toBand_rank_mono thr ha
  dsimp only [seriousnessScore]
  generalize hg1 : max (a₁ * 55)
      (clinicalFloor {row with serious_condition_score := some s₁})
      + seriousnessAdjustment {row with serious_condition_score := some s₁} = X₁ at hx ⊢
  generalize hg2 : max (a₂ * 55)
      (clinicalFloor {row with serious_condition_score := some s₂})
      + seriousnessAdjustment {row with serious_condition_score := some s₂} = X₂ at hx ⊢
  rcases toBand_cases a₁ thr with hb1 | hb1 | hb1 <;>
    rcases toBand_cases a₂ thr with hb2 | hb2 | hb2 <;>
      rw [hb1, hb2] at hrank ⊢ <;>
      simp only [bandstepHigh, bandstepMedium, bandstepLow] <;>
      first
        | (exact absurd hrank (by decide))
        | (exact clamp100_mono (max_le_max hx le_rfl))
        | (exact clamp100_mono (max_le (hx.trans (le_max_left _ _))
            ((by norm_num : (32:ℚ) ≤ 52).trans (le_max_right _ _))))
        | (exact clamp100_mono (hx.trans (le_max_left _ _)))
        | (exact clamp100_mono hx)

/-! ## Lower bounds along the adjustment chain (critical-status claims) -/

theorem ctxA2_ge (p : ℚ) (row : FeatureRow) : ctxA1 p row ≤ ctxA2 p row := by
  unfold ctxA2; split_ifs <;> linarith

theorem ctxA3_ge (p : ℚ) (row : FeatureRow) : ctxA2 p row ≤ ctxA3 p row := by
  unfold ctxA3; split_ifs <;> linarith

theorem ctxA4_ge (p : ℚ) (row : FeatureRow) : ctxA3 p row ≤ ctxA4 p row := by
  unfold ctxA4; split_ifs <;> linarith

theorem ctxA5_ge (p : ℚ) (row : FeatureRow) : ctxA4 p row ≤ ctxA5 p row := by
  unfold ctxA5; split_ifs <;> linarith

theorem ctxA6_ge (p : ℚ) (row : FeatureRow) : ctxA5 p row ≤ ctxA6 p row := by
  unfold ctxA6; split_ifs <;> linarith

theorem ctxA7_ge (p : ℚ) (row : FeatureRow) : ctxA6 p row ≤ ctxA7 p row := by
  unfold ctxA7; split_ifs <;> linarith

theorem ctxA8_ge (p : ℚ) (row : FeatureRow) : ctxA7 p row ≤ ctxA8 p row := by
  unfold ctxA8; split_ifs <;> linarith

theorem ctxA9_ge (p : ℚ) (row : FeatureRow) (thr : Option BandThresholds) :
    ctxA8 p row ≤ ctxA9 p row thr := by
  unfold ctxA9
  dsimp only
  split_ifs <;> linarith

theorem ctxA9_ge_A1 (p : ℚ) (row : FeatureRow) (thr : Option BandThresholds) :
    ctxA1 p row ≤ ctxA9 p row thr :=
  ((((((ctxA2_ge p row).trans (ctxA3_ge p row)).trans (ctxA4_ge p row)).trans
    (ctxA5_ge p row)).trans ((ctxA6_ge p row).trans (ctxA7_ge p row))).trans
    (ctxA8_ge p row)).trans (ctxA9_ge p row thr)

theorem ctxA1_ge_of_critical (p : ℚ) (row : FeatureRow)
    (h1 : statusNorm row = "critical") : 0.45 ≤ ctxA1 p row := by
  unfold ctxA1
  rw [h1]
  split_ifs with hc hd
  · norm_num
  · exact absurd hd (by decide)
  · have h2 : ¬ ctxA0 p < 0.45 := fun hlt => hc ⟨rfl, hlt⟩
    linarith

theorem ctxAdjustProb_ge_of_critical (p : ℚ) (row : FeatureRow)
    (thr : Option BandThresholds) (h1 : statusNorm row = "critical") :
    0.45 ≤ ctxAdjustProb p row thr := by
  have h9 : (0.45:ℚ) ≤ ctxA9 p row thr :=
    (ctxA1_ge_of_critical p row h1).trans (ctxA9_ge_A1 p row thr)
  unfold ctxAdjustProb
  exact le_trans (le_min (by norm_num) h9) (le_max_right _ _)

theorem toBand_high_of_ge (a : ℚ) (h : 0.35 ≤ a) : toBand a none = "high" := by
  unfold toBand normalizedBandThresholds
  dsimp only [Option.bind, Option.getD]
  rw [if_neg (by norm_num : ¬ (0.35:ℚ) ≤ 0.15), if_pos (show a ≥ 0.35 from h)]

theorem seriousnessScore_ge_52_of_high (a : ℚ) (row : FeatureRow) :
    52 ≤ seriousnessScore a "high" row := by
  dsimp only [seriousnessScore]
  rw [bandstepHigh]
  exact le_trans (le_min (by norm_num) (le_max_right _ _)) (le_max_right _ _)

theorem seriousness_level_high_or_critical {a : ℚ} {b : String} {row : FeatureRow}
    (h : 52 ≤ seriousnessScore a b row) :
    (seriousnessAssessment a b row).2.1 = "high"
      ∨ (seriousnessAssessment a b row).2.1 = "critical" := by
  unfold seriousnessAssessment
  dsimp only
  split_ifs with h70
  · exact Or.inr rfl
  · exact Or.inl rfl

/-! ## Loader lemmas -/

theorem findSome?_none_of_all {α β : Type} (f : α → Option β) :
    ∀ l : List α, (∀ a ∈ l, f a = none) → l.findSome? f = none
  | [], _ => rfl
  | a :: as, h => by
    have ha := h a (List.mem_cons_self a as)
    have hrec := findSome?_none_of_all f as (fun x hx => h x (List.mem_cons_of_mem a hx))
    simp [List.findSome?, ha, hrec]

theorem heuristicPrediction_mode (row : FeatureRow) :
    (heuristicPrediction row).scoring_mode = "heuristic" := rfl

/-! ## Claim theorems -/

theorem risk_consistency_core (a : ℚ) (b : String) (row : FeatureRow) :
    (riskFromSeriousness (seriousnessAssessment a b row).1
        (seriousnessAssessment a b row).2.1).1
      = pyRound (max 0.01 (min 0.95 ((seriousnessAssessment a b row).1 / 100))) 4
    ∧ 0 ≤ (seriousnessAssessment a b row).1
    ∧ (seriousnessAssessment a b row).1 ≤ 100
    ∧ (riskFromSeriousness (seriousnessAssessment a b row).1
        (seriousnessAssessment a b row).2.1).2
      = levelToBand (seriousnessAssessment a b row).2.1 :=
  ⟨rfl, (seriousnessAssessment_fst_bounds a b row).1,
    (seriousnessAssessment_fst_bounds a b row).2,
    riskFromSeriousness_snd_levelToBand _ (seriousnessAssessment_level_cases a b row)⟩

set_option maxHeartbeats 3200000 in
/-- C1: for every Prediction returned by `predict` — heuristic or
supervised mode — `risk_probability` equals
`round(clamp(seriousness_factor/100, 0.01, 0.95), 4)`, the seriousness
factor lies in [0, 100], and `risk_band` is obtained from
`seriousness_level` by the fixed mapping critical/high → high,
moderate → medium, otherwise low. -/
theorem predict_risk_fields_consistent (payload? : Option ModelPayload) (row : FeatureRow) :
    (predictRow payload? row).risk_probability
        = pyRound (max 0.01 (min 0.95 ((predictRow payload? row).seriousness_factor / 100))) 4
      ∧ 0 ≤ (predictRow payload? row).seriousness_factor
      ∧ (predictRow payload? row).seriousness_factor ≤ 100
      ∧ (predictRow payload? row).risk_band
          = levelToBand (predictRow payload? row).seriousness_level := by
  rcases payload? with _ | ⟨pp, bt, mv, tf⟩
  · exact risk_consistency_core _ _ row
  · rcases pp with _ | prob
    · exact risk_consistency_core _ _ row
    · exact risk_consistency_core _ _ row

theorem ite_zero_ge (d c : ℚ) : ((if d = 0 then (0:ℚ) else d) ≥ c) = (d ≥ c) := by
  by_cases hd : d = 0 <;> simp [hd]

theorem ite_zero_eq_zero (m : ℚ) : ((if m = 0 then (0:ℚ) else m) = 0) = (m = 0) := by
  by_cases hm : m = 0 <;> simp [hm]

set_option maxHeartbeats 3200000 in
/-- C2: `heuristic_risk_score` returns exactly the clamped additive rule
score, its value lies in [0.01, 0.95], and it is deterministic. -/
theorem heuristic_risk_score_spec (row : FeatureRow) :
    heuristic_risk_score row
        = max 0.01 (min 0.95 ((0.08:ℚ)
            + (if row.status = "critical" then (0.20:ℚ) else 0)
            + (if row.days_since_admission ≥ 14 then (0.10:ℚ) else 0)
            + (if row.age_years ≥ 75 then (0.08:ℚ) else 0)
            + (if row.history_count ≥ 4 then (0.06:ℚ) else 0)
            + (if row.past_history_count ≥ 2 then (0.04:ℚ) else 0)
            - (if row.medication_count = 0 then (0.04:ℚ) else 0)))
      ∧ 0.01 ≤ heuristic_risk_score row
      ∧ heuristic_risk_score row ≤ 0.95
      ∧ ∀ row2 : FeatureRow, row2 = row →
          heuristic_risk_score row2 = heuristic_risk_score row := by
  refine ⟨?_, ?_, ?_, fun row2 h2 => by rw [h2]⟩
  · dsimp only [heuristic_risk_score]
    simp only [ite_zero_ge, ite_zero_eq_zero]
    split_ifs <;> norm_num
  · dsimp only [heuristic_risk_score]
    exact le_max_left _ _
  · dsimp only [heuristic_risk_score]
    exact max_le (by norm_num) (min_le_left _ _)

theorem heuristic_risk_score_spec_witness :
    0.01 ≤ heuristic_risk_score zeroRow
    ∧ heuristic_risk_score zeroRow ≤ 0.95
    ∧ heuristic_risk_score zeroRow = heuristic_risk_score zeroRow :=
  ⟨(heuristic_risk_score_spec zeroRow).2.1,
    (heuristic_risk_score_spec zeroRow).2.2.1,
    (heuristic_risk_score_spec zeroRow).2.2.2 zeroRow rfl⟩

/-- C3: when the artifact directory is missing, no file matches the
artifact pattern, or every matching candidate fails to load, `predict`
does not raise: the loader reports no artifact and the prediction is
served in heuristic mode. -/
theorem predict_heuristic_fallback (env : LoaderEnv) (row : FeatureRow)
    (h : env.dirExists = false ∨ env.artifacts = []
        ∨ ∀ a ∈ env.artifacts, a.payload = none) :
    loadLatest env = none
      ∧ (predictRow (loadLatest env) row).scoring_mode = "heuristic" := by
  have hl : loadLatest env = none := by
    unfold loadLatest
    rcases h with h | h | h
    · simp [h]
    · simp [h]
    · split_ifs with h1 h2 h3
      · rfl
      · rfl
      · rfl
      · exact findSome?_none_of_all _ _ h
  exact ⟨hl, by rw [hl]; rfl⟩

theorem predict_heuristic_fallback_witness :
    loadLatest corruptEnv = none
      ∧ (predictRow (loadLatest corruptEnv) zeroRow).scoring_mode = "heuristic" :=
  predict_heuristic_fallback corruptEnv zeroRow (Or.inr (Or.inr (by decide)))

/-- C10: if joblib cannot be imported, artifact loading reports no
artifact without raising, and `predict` silently serves in heuristic
mode even when valid artifact files are present. -/
theorem predict_heuristic_when_joblib_missing (env : LoaderEnv) (row : FeatureRow)
    (h : env.joblibOk = false) :
    loadLatest env = none
      ∧ (predictRow (loadLatest env) row).scoring_mode = "heuristic" := by
  have hl : loadLatest env = none := by
    unfold loadLatest
    split_ifs <;> rfl
  exact ⟨hl, by rw [hl]; rfl⟩

theorem predict_heuristic_when_joblib_missing_witness :
    loadLatest noJoblibEnv = none
      ∧ (predictRow (loadLatest noJoblibEnv) zeroRow).scoring_mode = "heuristic" :=
  predict_heuristic_when_joblib_missing noJoblibEnv zeroRow rfl

/-- C4: increasing `serious_condition_score` with every other feature and
the input probability held fixed never decreases the seriousness factor
produced by the composed context-adjustment and seriousness-assessment
computation. -/
theorem seriousness_monotone_in_serious_score (p : ℚ) (thr : Option BandThresholds)
    (row : FeatureRow) {s₁ s₂ : ℚ} (h : s₁ ≤ s₂) :
    seriousnessPipeline p {row with serious_condition_score := some s₁} thr
      ≤ seriousnessPipeline p {row with serious_condition_score := some s₂} thr := by
  have hctx := ctxAdjustProb_mono p row thr h
  have hscore := seriousnessScore_mono thr row hctx h
  unfold seriousnessPipeline
  rw [seriousnessAssessment_fst, seriousnessAssessment_fst]
  exact pyRound_mono 1 hscore

theorem seriousness_monotone_in_serious_score_witness :
    seriousnessPipeline 0.5 {zeroRow with serious_condition_score := some 0} none
      ≤ seriousnessPipeline 0.5 {zeroRow with serious_condition_score := some 600} none :=
  seriousness_monotone_in_serious_score 0.5 none zeroRow (by norm_num)

/-- C6: whenever the normalized status is "critical" and the incoming
probability is below 0.45, the context adjuster raises it to exactly 0.45
and records the delta as an "up" factor; and for the minimal-feature
critical patient the adjusted probability is at least 0.45 for every
incoming probability, with a resulting seriousness level of "high" or
"critical". -/
theorem critical_status_floor :
    (∀ (p : ℚ) (row : FeatureRow) (thr : Option BandThresholds),
        statusNorm row = "critical" → ctxA0 p < 0.45 →
          ctxA1 p row = 0.45
          ∧ (⟨"status=critical", "up", pyRound (0.45 - ctxA0 p) 4⟩ : Factor)
              ∈ ctxAdjustFactors p row thr
          ∧ 0.45 ≤ ctxAdjustProb p row thr)
    ∧ ∀ p : ℚ,
        0.45 ≤ ctxAdjustProb p criticalMinRow none
        ∧ ((seriousnessAssessment (ctxAdjustProb p criticalMinRow none)
              (toBand (ctxAdjustProb p criticalMinRow none) none) criticalMinRow).2.1 = "high"
          ∨ (seriousnessAssessment (ctxAdjustProb p criticalMinRow none)
              (toBand (ctxAdjustProb p criticalMinRow none) none) criticalMinRow).2.1
                = "critical") := by
  constructor
  · intro p row thr h1 h2
    refine ⟨?_, ?_, ctxAdjustProb_ge_of_critical p row thr h1⟩
    · unfold ctxA1
      rw [if_pos ⟨h1, h2⟩]
    · unfold ctxAdjustFactors
      dsimp only
      rw [if_pos ⟨h1, h2⟩]
      exact List.mem_append_left _ (List.mem_append_left _ (List.mem_append_left _
        (List.mem_append_left _ (List.mem_append_left _ (List.mem_append_left _
          (List.mem_append_left _ (List.mem_append_left _ (List.mem_singleton_self _))))))))
  · intro p
    have hs : statusNorm criticalMinRow = "critical" := by decide
    have hge := ctxAdjustProb_ge_of_critical p criticalMinRow none hs
    refine ⟨hge, ?_⟩
    have hband : toBand (ctxAdjustProb p criticalMinRow none) none = "high" :=
      toBand_high_of_ge _ (by linarith)
    rw [hband]
    exact seriousness_level_high_or_critical (seriousnessScore_ge_52_of_high _ _)

theorem critical_status_floor_witness :
    (ctxA1 0.1 criticalMinRow = 0.45
      ∧ (⟨"status=critical", "up", pyRound (0.45 - ctxA0 0.1) 4⟩ : Factor)
          ∈ ctxAdjustFactors 0.1 criticalMinRow none
      ∧ 0.45 ≤ ctxAdjustProb 0.1 criticalMinRow none)
    ∧ 0.45 ≤ ctxAdjustProb 0.2 criticalMinRow none :=
  ⟨critical_status_floor.1 0.1 criticalMinRow none (by decide)
      (by norm_num [ctxA0, max_def, min_def]),
    (critical_status_floor.2 0.2).1⟩

/-! ## String evaluation facts used by concrete scenarios -/

theorem eqf_active_critical : (("active":String) = "critical") = False := eq_false (by decide)

theorem eqf_active_discharged : (("active":String) = "discharged") = False := eq_false (by decide)

theorem eqf_unknown_critical : (("unknown":String) = "critical") = False := eq_false (by decide)

theorem eqf_unknown_discharged : (("unknown":String) = "discharged") = False := eq_false (by decide)

theorem eqf_low_high : (("low":String) = "high") = False := eq_false (by decide)

theorem eqf_low_medium : (("low":String) = "medium") = False := eq_false (by decide)

theorem eqf_low_critical : (("low":String) = "critical") = False := eq_false (by decide)

theorem eqf_low_moderate : (("low":String) = "moderate") = False := eq_false (by decide)

theorem strnorm_active : strLower (strStrip "active") = "active" := by decide

theorem strnorm_unknown : strLower (strStrip "unknown") = "unknown" := by decide

theorem strnorm_high : strLower (strStrip "high") = "high" := by decide

theorem strnorm_low : strLower (strStrip "low") = "low" := by decide

/-- C5: for a patient of raw age 115 with status "active", no other risk
markers and the default band thresholds, `predict` returns a final risk
probability of at least 0.37 and the "high" risk band. -/
theorem age_floor_scenario :
    0.37 ≤ (predict noArtifactEnv (some agedPatient) 42000).risk_probability
      ∧ (predict noArtifactEnv (some agedPatient) 42000).risk_band = "high" := by
  have hrow : patient_to_feature_dict (some agedPatient) 42000 = agedRow := by decide
  have hpred : predict noArtifactEnv (some agedPatient) 42000
      = heuristicPrediction agedRow := by
    unfold predict
    rw [hrow]
    rfl
  have h1 : heuristic_risk_score agedRow = 3/25 := by
    norm_num [heuristic_risk_score, agedRow, eqf_active_critical, max_def, min_def]
  have h2 : ctxAdjustProb (3/25) agedRow none = 37/100 := by
    norm_num [ctxAdjustProb, ctxA9, ctxA8, ctxA7, ctxA6, ctxA5, ctxA4, ctxA3, ctxA2,
      ctxA1, ctxA0, severeBonus, orZero, rawDaysOf, ageRawOf, chainOr, statusNorm,
      strnorm_active, eqf_active_critical, eqf_active_discharged,
      normalizedBandThresholds, agedRow, max_def, min_def]
  have h3 : toBand (37/100) none = "high" := toBand_high_of_ge _ (by norm_num)
  have h4 : seriousnessAssessment (37/100) "high" agedRow
      = (52, "high", "Urgent clinician assessment (target: within 30 minutes).") := by
    norm_num [seriousnessAssessment, seriousnessScore, seriousnessAdjustment,
      clinicalFloor, orZero, rawDaysOf, ageRawOf, chainOr, statusNorm,
      strnorm_active, eqf_active_critical, eqf_active_discharged, bandstepHigh,
      agedRow, max_def, min_def, pyRound, rhe]
  rw [hpred]
  constructor
  · show (0.37:ℚ) ≤ (heuristicPrediction agedRow).risk_probability
    norm_num [heuristicPrediction, h1, h2, h3, h4, riskFromSeriousness,
      strnorm_high, pyRound, rhe, max_def, min_def]
  · show (heuristicPrediction agedRow).risk_band = "high"
    norm_num [heuristicPrediction, h1, h2, h3, h4, riskFromSeriousness,
      strnorm_high, pyRound, rhe, max_def, min_def]

/-- C7 (code evaluation at the failing input): for a patient aged 115 and
admitted 60 days before serving time, the feature row carries no
`age_years_raw` or `days_since_admission_raw` key — only the clamped
values 110 and 30 — so the service's raw-days override (`raw_days >= 60`)
can never fire on rows built by `patient_to_feature_dict`. -/
theorem raw_keys_absent_code_eval :
    (patient_to_feature_dict (some stayPatient) 42000).age_years_raw = none
    ∧ (patient_to_feature_dict (some stayPatient) 42000).days_since_admission_raw = none
    ∧ (patient_to_feature_dict (some stayPatient) 42000).age_years = 110
    ∧ (patient_to_feature_dict (some stayPatient) 42000).days_since_admission = 30
    ∧ rawDaysOf (patient_to_feature_dict (some stayPatient) 42000) = 30
    ∧ ¬ (60:ℚ) ≤ rawDaysOf (patient_to_feature_dict (some stayPatient) 42000) := by
  decide

/-- C8 (counterexample to "raises iff the patient is null"): `predict`
applied to a null patient returns a normal heuristic Prediction — every
`getattr` in `patient_to_feature_dict` carries a default, so nothing
raises. -/
theorem predict_null_patient_returns :
    (predict noArtifactEnv none 0).scoring_mode = "heuristic"
    ∧ (predict noArtifactEnv none 0).risk_band = "low"
    ∧ (predict noArtifactEnv none 0).risk_probability = 0.032 := by
  have hrow : patient_to_feature_dict none 0 = zeroRow := rfl
  have hpred : predict noArtifactEnv none 0 = heuristicPrediction zeroRow := by
    unfold predict
    rw [hrow]
    rfl
  have h1 : heuristic_risk_score zeroRow = 1/25 := by
    norm_num [heuristic_risk_score, zeroRow, eqf_unknown_critical, max_def, min_def]
  have h2 : ctxAdjustProb (1/25) zeroRow none = 1/25 := by
    norm_num [ctxAdjustProb, ctxA9, ctxA8, ctxA7, ctxA6, ctxA5, ctxA4, ctxA3, ctxA2,
      ctxA1, ctxA0, severeBonus, orZero, rawDaysOf, ageRawOf, chainOr, statusNorm,
      strnorm_unknown, eqf_unknown_critical, eqf_unknown_discharged,
      normalizedBandThresholds, zeroRow, max_def, min_def]
  have h3 : toBand (1/25) none = "low" := by
    norm_num [toBand, normalizedBandThresholds, Option.bind, Option.getD]
  have h4 : seriousnessAssessment (1/25) "low" zeroRow
      = (16/5, "low", "Routine monitoring; reassess on any status change.") := by
    norm_num [seriousnessAssessment, seriousnessScore, seriousnessAdjustment,
      clinicalFloor, orZero, rawDaysOf, ageRawOf, chainOr, statusNorm,
      strnorm_unknown, eqf_unknown_critical, eqf_unknown_discharged,
      eqf_low_high, eqf_low_medium, zeroRow, max_def, min_def, pyRound, rhe]
  rw [hpred]
  refine ⟨rfl, ?_, ?_⟩
  · show (heuristicPrediction zeroRow).risk_band = "low"
    norm_num [heuristicPrediction, h1, h2, h3, h4, riskFromSeriousness,
      strnorm_low, eqf_low_high, eqf_low_critical, eqf_low_moderate,
      pyRound, rhe, max_def, min_def]
  · show (heuristicPrediction zeroRow).risk_probability = 0.032
    norm_num [heuristicPrediction, h1, h2, h3, h4, riskFromSeriousness,
      strnorm_low, eqf_low_high, eqf_low_critical, eqf_low_moderate,
      pyRound, rhe, max_def, min_def]

/-- C8 (amended): `predict` never raises for any patient reference.  A null
patient is treated exactly like a patient with every attribute absent, and
such a patient's feature row collapses to the zero/unknown defaults; the
prediction proceeds normally in either case. -/
theorem predict_null_equals_empty (today : ℤ) (env : LoaderEnv) :
    patient_to_feature_dict none today = patient_to_feature_dict (some emptyPatient) today
    ∧ patient_to_feature_dict none today = zeroRow
    ∧ predict env none today = predict env (some emptyPatient) today :=
  ⟨rfl, rfl, rfl⟩

/-- C9 (counterexample): for 35 rows with 5 positives (base rate 1/7, which
passes every validation gate), the persisted medium threshold is the
4-decimal rounding 0.1429, not the exact clamp value 1/7. -/
theorem band_thresholds_rounding_counterexample :
    (band_thresholds_of 5 35).1 ≠ max 0.08 (min 0.20 ((5:ℚ)/35)) := by
  have h : (band_thresholds_of 5 35).1 = 1429/10000 := by
    norm_num [band_thresholds_of, pyRound, rhe, max_def, min_def]
  rw [h]
  norm_num [max_def, min_def]

/-- C9 (amended): for any counts passing validation, the persisted band
thresholds are the 4-decimal roundings of `clamp(base_rate, 0.08, 0.20)`
and `max(medium + 0.05, min(base_rate*2, 0.35))`; the persisted medium
still lies in [0.08, 0.20] and the persisted high is strictly larger. -/
theorem band_thresholds_spec (p n : ℕ) (h3 : 3 ≤ n) (h1 : 1 ≤ p) (hpn : p ≤ n) :
    (band_thresholds_of p n).1 = pyRound (max 0.08 (min 0.20 ((p:ℚ)/(n:ℚ)))) 4
    ∧ (band_thresholds_of p n).2
        = pyRound (max (max 0.08 (min 0.20 ((p:ℚ)/(n:ℚ))) + 0.05)
            (min 0.35 (((p:ℚ)/(n:ℚ)) * 2))) 4
    ∧ 0.08 ≤ (band_thresholds_of p n).1
    ∧ (band_thresholds_of p n).1 ≤ 0.20
    ∧ (band_thresholds_of p n).1 < (band_thresholds_of p n).2 := by
  have hm1 : (0.08:ℚ) ≤ max 0.08 (min 0.20 ((p:ℚ)/(n:ℚ))) := le_max_left _ _
  have hm2 : max 0.08 (min 0.20 ((p:ℚ)/(n:ℚ))) ≤ 0.20 :=
    max_le (by norm_num) (min_le_left _ _)
  have hh1 : max 0.08 (min 0.20 ((p:ℚ)/(n:ℚ))) + 0.05
      ≤ max (max 0.08 (min 0.20 ((p:ℚ)/(n:ℚ))) + 0.05) (min 0.35 (((p:ℚ)/(n:ℚ)) * 2)) :=
    le_max_left _ _
  have hlo : pyRound (0.08:ℚ) 4 = 0.08 := pyRound_eq_self_of_int _ _ 800 (by norm_num)
  have hhi : pyRound (0.20:ℚ) 4 = 0.20 := pyRound_eq_self_of_int _ _ 2000 (by norm_num)
  have hb1 := abs_pyRound_sub_le (max 0.08 (min 0.20 ((p:ℚ)/(n:ℚ)))) 4
  have hb2 := abs_pyRound_sub_le (max (max 0.08 (min 0.20 ((p:ℚ)/(n:ℚ))) + 0.05)
      (min 0.35 (((p:ℚ)/(n:ℚ)) * 2))) 4
  rw [abs_le] at hb1 hb2
  norm_num at hb1 hb2
  refine ⟨rfl, rfl, ?_, ?_, ?_⟩
  · calc (0.08:ℚ) = pyRound 0.08 4 := hlo.symm
      _ ≤ pyRound (max 0.08 (min 0.20 ((p:ℚ)/(n:ℚ)))) 4 := pyRound_mono 4 hm1
  · calc pyRound (max 0.08 (min 0.20 ((p:ℚ)/(n:ℚ)))) 4
        ≤ pyRound 0.20 4 := pyRound_mono 4 hm2
      _ = 0.20 := hhi
  · show pyRound (max 0.08 (min 0.20 ((p:ℚ)/(n:ℚ)))) 4
        < pyRound (max (max 0.08 (min 0.20 ((p:ℚ)/(n:ℚ))) + 0.05)
            (min 0.35 (((p:ℚ)/(n:ℚ)) * 2))) 4
    linarith [hb1.1, hb1.2, hb2.1, hb2.2]

theorem band_thresholds_spec_witness :
    0.08 ≤ (band_thresholds_of 6 30).1
    ∧ (band_thresholds_of 6 30).1 ≤ 0.20
    ∧ (band_thresholds_of 6 30).1 < (band_thresholds_of 6 30).2 :=
  ⟨(band_thresholds_spec 6 30 (by norm_num) (by norm_num) (by norm_num)).2.2.1,
    (band_thresholds_spec 6 30 (by norm_num) (by norm_num) (by norm_num)).2.2.2.1,
    (band_thresholds_spec 6 30 (by norm_num) (by norm_num) (by norm_num)).2.2.2.2⟩

end RiskScoring
